import Mathlib

/-!
Verification of the invoice-generator repository core: the invoice financial
model (invoice_models.py), the per-tenant invoice-number allocator
(companies/models.py, invoice_generator.py), the PDF document layout
computations (pdf_generator.py), the file-backed client store
(client_manager.py) and the Django invoice model (invoice_management/models.py).

Conventions of the embedding:
 - Python floats and Decimals are modelled as rationals; Python round(x, 2)
   (round half to even) is modelled by rhe and round2 below.
 - Python strings are Lean Strings; rendering of numbers is modelled by an
   explicit decimal-digit renderer decRepr.
 - datetime values are modelled by the DateTime structure (year .. microsecond);
   dates by Date; clock reads (datetime.now) are threaded as parameters.
-/

/-! ## Decimal digits and zero padding -/

/-- The character of the decimal digit d (for d < 10), as in Python str(). -/
def digitChar (d : ℕ) : Char := Char.ofNat (48 + d)

/-- Digit-extraction worker for decRepr: prepends the digits of n to acc.
The first argument is fuel (n itself suffices, since n / 10 < n); structural
recursion on the fuel keeps the definition kernel-reducible. -/
def decReprGo : ℕ → ℕ → List Char → List Char
  | 0, n, acc => digitChar n :: acc
  | fuel + 1, n, acc =>
    if n < 10 then digitChar n :: acc
    else decReprGo fuel (n / 10) (digitChar (n % 10) :: acc)

/-- The decimal representation of a natural number, most significant digit
first, no leading zeros (except for 0 itself): the embedding of Python
str(n) for n a non-negative integer. -/
def decRepr (n : ℕ) : List Char := decReprGo n n []

/-- Numeric value of a list of decimal digit characters (most significant
first), the way int() reads a digit string. -/
def valOfDigits (l : List Char) : ℕ :=
  l.foldl (fun acc c => 10 * acc + (c.toNat - 48)) 0

/-- Zero padding to width w: the embedding of Python format(n, "0wd"),
which left-pads the decimal representation with zeros up to width w. -/
def padChars (w n : ℕ) : List Char :=
  List.replicate (w - (decRepr n).length) '0' ++ decRepr n

/-- Python format(n, "04d"): used by the invoice-number allocators. -/
def pad4 (n : ℕ) : String := String.mk (padChars 4 n)

/-! ## Python round(x, 2): round half to even at two decimal places -/
/-- Round a rational to the nearest integer, ties to even: the value semantics
of Python round() on exact inputs. -/
def rhe (q : ℚ) : ℤ :=
  if q - ⌊q⌋ < 1 / 2 then ⌊q⌋
  else if 1 / 2 < q - ⌊q⌋ then ⌊q⌋ + 1
  else if ⌊q⌋ % 2 = 0 then ⌊q⌋ else ⌊q⌋ + 1

/-- Python round(q, 2). -/
def round2 (q : ℚ) : ℚ := (rhe (q * 100) : ℚ) / 100

/-- q is representable with two decimal places (a whole number of cents). -/
def TwoDec (q : ℚ) : Prop := ∃ n : ℤ, q = (n : ℚ) / 100

/-! ## Dates and datetimes (datetime.datetime / datetime.date, day precision) -/
/-- A calendar date, as returned by datetime.date(). -/
structure Date where
  year : ℕ
  month : ℕ
  day : ℕ
deriving DecidableEq, Repr

/-- Calendar order on dates (valid dates compare lexicographically). -/
def Date.lt (a b : Date) : Prop :=
  a.year < b.year ∨ (a.year = b.year ∧
    (a.month < b.month ∨ (a.month = b.month ∧ a.day < b.day)))

instance (a b : Date) : Decidable (Date.lt a b) := by
  unfold Date.lt; infer_instance

/-- A naive datetime.datetime value. -/
structure DateTime where
  year : ℕ
  month : ℕ
  day : ℕ
  hour : ℕ
  minute : ℕ
  second : ℕ
  microsecond : ℕ
deriving DecidableEq, Repr

/-- datetime.date(): drop the time-of-day part. -/
def DateTime.date (d : DateTime) : Date := ⟨d.year, d.month, d.day⟩

/-! ## invoice_models.py: Client, InvoiceItem, Invoice -/
/-- Client dataclass of invoice_models.py. -/
structure Client where
  name : String
  email : String
  address : String
  phone : Option String := none
  company : Option String := none
deriving DecidableEq, Repr

/-- InvoiceItem dataclass of invoice_models.py. -/
structure InvoiceItem where
  description : String
  quantity : ℚ
  rate : ℚ
  unit : String := "hours"
deriving DecidableEq, Repr

/-- InvoiceItem.total: round(quantity * rate, 2). -/
def InvoiceItem.total (it : InvoiceItem) : ℚ := round2 (it.quantity * it.rate)

/-- Invoice dataclass of invoice_models.py. -/
structure Invoice where
  invoice_number : String
  client : Client
  items : List InvoiceItem
  issue_date : DateTime
  due_date : DateTime
  business_name : String
  business_address : String
  business_email : String
  business_phone : Option String := none
  tax_rate : ℚ := 0
  notes : Option String := none
  payment_terms : Option String := none
  currency : String := "USD"
  status : String := "pending"
  discount_percentage : ℚ := 0
deriving DecidableEq, Repr

/-- Invoice.subtotal: round(sum(item.total for item in items), 2). -/
def Invoice.subtotal (inv : Invoice) : ℚ :=
  round2 ((inv.items.map InvoiceItem.total).sum)

/-- Invoice.discount_amount: round(subtotal * discount_percentage / 100, 2). -/
def Invoice.discount_amount (inv : Invoice) : ℚ :=
  round2 (inv.subtotal * inv.discount_percentage / 100)

/-- Invoice.subtotal_after_discount: round(subtotal - discount_amount, 2). -/
def Invoice.subtotal_after_discount (inv : Invoice) : ℚ :=
  round2 (inv.subtotal - inv.discount_amount)

/-- Invoice.tax_amount: round(subtotal_after_discount * tax_rate / 100, 2). -/
def Invoice.tax_amount (inv : Invoice) : ℚ :=
  round2 (inv.subtotal_after_discount * inv.tax_rate / 100)

/-- Invoice.total: round(subtotal_after_discount + tax_amount, 2). -/
def Invoice.total (inv : Invoice) : ℚ :=
  round2 (inv.subtotal_after_discount + inv.tax_amount)

/-- Invoice.is_overdue: due_date.date() < today and status == "pending";
the clock read datetime.now().date() is the parameter today. -/
def Invoice.is_overdue (today : Date) (inv : Invoice) : Bool :=
  decide (Date.lt inv.due_date.date today) && (inv.status == "pending")

/-- The worked end-to-end example of the spec: client Acme, 10 hours at 50
and 3 pieces at 20, tax 5 percent, no discount. -/
def invoiceExample : Invoice :=
  { invoice_number := "INV-0001"
    client := { name := "Acme", email := "billing@acme.test", address := "1 Main St" }
    items := [ { description := "Development", quantity := 10, rate := 50, unit := "hours" },
               { description := "Widgets", quantity := 3, rate := 20, unit := "pieces" } ]
    issue_date := ⟨2025, 1, 1, 9, 30, 0, 0⟩
    due_date := ⟨2025, 1, 31, 0, 0, 0, 0⟩
    business_name := "Freelance Co"
    business_address := "2 Side St"
    business_email := "mail@freelance.test"
    tax_rate := 5
    discount_percentage := 0 }

/-! ## invoice_management/models.py: the Django Invoice model (C3) -/
/-- Invoice model of invoice_management/models.py (the fields the financial
and overdue logic reads; status choices are draft/sent/paid/overdue/cancelled,
dates are DateFields). -/
structure DjangoInvoice where
  invoice_number : String
  issue_date : Date
  due_date : Date
  tax_rate : ℚ := 0
  notes : String := ""
  status : String := "draft"
deriving DecidableEq, Repr

/-- DjangoInvoice.is_overdue: due_date < timezone.now().date() and
status in the list containing only sent; the clock read is the parameter. -/
def DjangoInvoice.is_overdue (today : Date) (inv : DjangoInvoice) : Bool :=
  decide (Date.lt inv.due_date today) && ["sent"].contains inv.status

/-- An already-paid invoice whose due date is long past. -/
def paidInvoiceExample : Invoice :=
  { invoiceExample with status := "paid" }

/-- A sent Django invoice whose due date is long past. -/
def sentDjangoInvoiceExample : DjangoInvoice :=
  { invoice_number := "INV-0002", issue_date := ⟨2025, 1, 1⟩,
    due_date := ⟨2025, 1, 31⟩, status := "sent" }

/-! ## companies/models.py and invoice_generator.py: invoice numbering (C2) -/
/-- Company model of companies/models.py: currency settings and the per-tenant
invoice numbering state. invoicePrefix embeds the invoice prefix CharField
(default INV); invoice_counter the PositiveIntegerField (default 1). -/
structure Company where
  name : String := ""
  currency : String := "USD"
  invoicePrefix : String := "INV"
  invoice_counter : ℕ := 1
  default_tax_rate : ℚ := 0
deriving DecidableEq, Repr

/-- Company.get_next_invoice_number: formats the prefix, a dash and the
counter zero-padded to 4 digits, then increments and saves the counter;
returned together with the updated state. -/
def Company.get_next_invoice_number (co : Company) : String × Company :=
  (co.invoicePrefix ++ "-" ++ pad4 co.invoice_counter,
   { co with invoice_counter := co.invoice_counter + 1 })

/-- N sequential calls to Company.get_next_invoice_number, threading the
persisted state; the allocated numbers in order. -/
def Company.allocate : Company → ℕ → List String
  | _, 0 => []
  | co, n + 1 =>
    co.get_next_invoice_number.1 :: Company.allocate co.get_next_invoice_number.2 n

/-- The business configuration of invoice_generator.py (config.json). -/
structure GeneratorConfig where
  business_name : String := "Your Business Name"
  business_address : String := "123 Business St, City, State 12345"
  business_email : String := "contact@yourbusiness.com"
  business_phone : String := "(555) 123-4567"
  default_tax_rate : ℚ := 0
  invoice_counter : ℕ := 1
deriving DecidableEq, Repr

/-- InvoiceGenerator.get_next_invoice_number: INV, a dash and the config
counter zero-padded to 4 digits; increments and saves the counter. -/
def GeneratorConfig.get_next_invoice_number (cfg : GeneratorConfig) :
    String × GeneratorConfig :=
  ("INV-" ++ pad4 cfg.invoice_counter,
   { cfg with invoice_counter := cfg.invoice_counter + 1 })

/-! ## Amount formatting (C4): Invoice.get_currency_symbol / format_amount -/
/-- Python format(x, ".2f"): round half to even at the second decimal, then
sign, integer part and exactly two decimal digits. -/
def fmtFixed2 (q : ℚ) : String :=
  (if rhe (q * 100) < 0 then "-" else "") ++
    String.mk (decRepr ((rhe (q * 100)).natAbs / 100)) ++ "." ++
    String.mk [digitChar ((rhe (q * 100)).natAbs % 100 / 10),
               digitChar ((rhe (q * 100)).natAbs % 10)]

/-- Thousands grouping worker: the digits arrive least-significant first and
a comma is inserted after every third digit. -/
def groupRev : List Char → List Char
  | a :: b :: c :: d :: rest => a :: b :: c :: ',' :: groupRev (d :: rest)
  | l => l

/-- Python format(x, ",.2f"): as fmtFixed2, with the integer part grouped in
threes by commas. -/
def fmtComma2 (q : ℚ) : String :=
  (if rhe (q * 100) < 0 then "-" else "") ++
    String.mk (groupRev (decRepr ((rhe (q * 100)).natAbs / 100)).reverse).reverse ++ "." ++
    String.mk [digitChar ((rhe (q * 100)).natAbs % 100 / 10),
               digitChar ((rhe (q * 100)).natAbs % 10)]

/-- The currency table of Invoice.get_currency_symbol in invoice_models.py. -/
def invoiceCurrencySymbols : List (String × String) :=
  [("USD", "$"), ("EUR", "€"), ("GBP", "£"), ("CAD", "C$"),
   ("AUD", "A$"), ("JPY", "¥")]

/-- Invoice.get_currency_symbol: table lookup, default dollar. -/
def Invoice.get_currency_symbol (inv : Invoice) : String :=
  (invoiceCurrencySymbols.lookup inv.currency).getD "$"

/-- Invoice.format_amount: the currency symbol followed by the amount with
thousands separators and two decimals. -/
def Invoice.format_amount (inv : Invoice) (amount : ℚ) : String :=
  inv.get_currency_symbol ++ fmtComma2 amount

/-- The currency table of Company.get_currency_symbol in companies/models.py. -/
def companyCurrencySymbols : List (String × String) :=
  [("USD", "$"), ("EUR", "€"), ("GBP", "£"), ("CAD", "C$"), ("AUD", "A$"),
   ("CHF", "CHF"), ("SEK", "kr"), ("NOK", "kr"), ("DKK", "kr"), ("JPY", "¥"),
   ("CNY", "¥"), ("INR", "₹"), ("SGD", "S$"), ("HKD", "HK$"), ("BRL", "R$"),
   ("MXN", "$"), ("NZD", "NZ$"), ("ZAR", "R")]

/-- Company.get_currency_symbol: table lookup, default dollar. -/
def Company.get_currency_symbol (co : Company) : String :=
  (companyCurrencySymbols.lookup co.currency).getD "$"

/-- The currency-to-symbol table asserted by the spec for format_amount,
stated from the claim for comparison: USD, EUR, GBP, CAD, AUD, JPY, CNY and
INR mapped, anything else defaulting to dollar. -/
def claimedFormatSymbols (currency : String) : String :=
  (([("USD", "$"), ("EUR", "€"), ("GBP", "£"), ("CAD", "C$"), ("AUD", "A$"),
     ("JPY", "¥"), ("CNY", "¥"), ("INR", "₹")] :
    List (String × String)).lookup currency).getD "$"

/-! ## pdf_generator.py: items table, summary block, payment terms (C5-C7) -/
/-- Python str.strip(): drop leading and trailing whitespace. -/
def strip (s : String) : String :=
  String.mk (((s.data.dropWhile Char.isWhitespace).reverse.dropWhile
    Char.isWhitespace).reverse)

/-- Python str.lower() (ASCII range, which covers the unit tokens). -/
def lowerString (s : String) : String := String.mk (s.data.map Char.toLower)

/-- The unit_display_map of _add_items_table. -/
def unitDisplayMap : List (String × String) :=
  [("hour", "hr"), ("hours", "hrs"), ("day", "day"), ("days", "days"),
   ("piece", "pc"), ("pieces", "pcs"), ("each", "each"), ("item", "item"),
   ("unit", "unit"), ("box", "box"), ("kg", "kg"), ("lb", "lb"),
   ("meter", "m"), ("foot", "ft"), ("inch", "in")]

/-- Quantity cell of the items table: str(int(qty)) when the quantity is a
whole number (float.is_integer), else format(qty, ".2f"). -/
def qtyFormatted (q : ℚ) : String :=
  if q.den = 1 then
    (if q.num < 0 then "-" else "") ++ String.mk (decRepr q.num.natAbs)
  else fmtFixed2 q

/-- Unit cell of the items table: strip the unit, defaulting a blank unit to
each, then replace it by its entry in unit_display_map keyed on the lowercased
form, unmatched units passing through. -/
def unitFormatted (u : String) : String :=
  let uf := if u ≠ "" ∧ strip u ≠ "" then strip u else "each"
  (unitDisplayMap.lookup (lowerString uf)).getD uf

/-- One data row of the items table: description, quantity, unit, rate and
amount cells (rate and amount rendered with a dollar sign and .2f). -/
def itemRow (it : InvoiceItem) : List String :=
  [it.description, qtyFormatted it.quantity, unitFormatted it.unit,
   "$" ++ fmtFixed2 it.rate, "$" ++ fmtFixed2 it.total]

/-- The kinds of rows the summary table of _add_invoice_summary can hold
(discountRow is listed for the statement of C5; the code never emits it). -/
inductive SummaryRowKind
  | subtotalRow
  | discountRow
  | taxRow
  | totalRow
deriving DecidableEq, Repr

/-- The subtotal of _add_invoice_summary: recomputed as the raw sum of item totals. -/
def pdfSummarySubtotal (inv : Invoice) : ℚ := (inv.items.map InvoiceItem.total).sum

/-- The tax of _add_invoice_summary: recomputed as subtotal * (tax_rate / 100) when
tax_rate is truthy, else 0; the invoice discount is never consulted. -/
def pdfSummaryTax (inv : Invoice) : ℚ :=
  if inv.tax_rate ≠ 0 then pdfSummarySubtotal inv * (inv.tax_rate / 100) else 0

/-- The total of _add_invoice_summary: recomputed as subtotal + tax. -/
def pdfSummaryTotal (inv : Invoice) : ℚ := pdfSummarySubtotal inv + pdfSummaryTax inv

/-- The rows of the summary table, in order: subtotal, a tax row only when
tax_rate is truthy and positive, and the total row (which the table style
emphasizes: bold, larger font, ruled and shaded). Amount cells use a dollar
sign and .2f. -/
def pdfSummaryRows (inv : Invoice) : List (SummaryRowKind × String) :=
  [(SummaryRowKind.subtotalRow, "$" ++ fmtFixed2 (pdfSummarySubtotal inv))] ++
    (if inv.tax_rate ≠ 0 ∧ 0 < inv.tax_rate then
      [(SummaryRowKind.taxRow, "$" ++ fmtFixed2 (pdfSummaryTax inv))] else []) ++
    [(SummaryRowKind.totalRow, "$" ++ fmtFixed2 (pdfSummaryTotal inv))]

/-- The derived branch of _add_payment_terms: the text computed from
days_to_pay = (due_date - issue_date).days. -/
def derivedPaymentTerms (days_to_pay : ℤ) : String :=
  if days_to_pay ≤ 0 then "Payment due upon receipt"
  else if days_to_pay ≤ 15 then
    "Payment due within " ++ String.mk (decRepr days_to_pay.toNat) ++ " days"
  else
    "Payment due within " ++ String.mk (decRepr days_to_pay.toNat) ++
      " days of invoice date"

/-- The rendered output of _add_payment_terms: the rendered payment-terms text; an absent or empty
payment_terms attribute (Python falsiness) selects the derived text. The
dates enter through their day difference, at day precision. -/
def paymentTermsLine (payment_terms : Option String) (days_to_pay : ℤ) : String :=
  match payment_terms with
  | some s => if s = "" then derivedPaymentTerms days_to_pay else s
  | none => derivedPaymentTerms days_to_pay

/-- A discounted invoice: one line item of 100, a 10 percent discount, no
tax. Its reference total is 90, but the PDF summary ignores the discount. -/
def discountedInvoiceExample : Invoice :=
  { invoiceExample with
    items := [ { description := "Consulting", quantity := 1, rate := 100,
                 unit := "hours" } ]
    tax_rate := 0
    discount_percentage := 10 }

/-! ## client_manager.py: the file-backed client store (C8, C10) -/
/-- A stored client record of client_manager.py: the input fields, the
generated metadata and the defaulted optional fields that add_client always
materialises. -/
structure StoredClient where
  id : String
  name : String
  email : String
  created_date : String
  last_modified : String
  company : String := ""
  address : String := ""
  city : String := ""
  state : String := ""
  postal_code : String := ""
  country : String := ""
  phone : String := ""
  website : String := ""
  tax_id : String := ""
  payment_terms : String := "Net 30"
  currency : String := "USD"
  notes : String := ""
  billing_address : String := ""
  is_active : Bool := true
deriving DecidableEq, Repr

/-- The client_data dict handed to add_client: required name and email (the
empty string standing for a missing or falsy value, as Python truthiness
treats them alike) and the optional entries, absent ones to be defaulted. -/
structure NewClientData where
  name : String := ""
  email : String := ""
  company : Option String := none
  address : Option String := none
  city : Option String := none
  state : Option String := none
  postal_code : Option String := none
  country : Option String := none
  phone : Option String := none
  website : Option String := none
  tax_id : Option String := none
  payment_terms : Option String := none
  currency : Option String := none
  notes : Option String := none
  billing_address : Option String := none
  is_active : Option Bool := none
deriving DecidableEq, Repr

/-- Python int() on a digit string: error unless non-empty and all digits. -/
def parseNat (l : List Char) : Option ℕ :=
  if l ≠ [] ∧ l.all Char.isDigit then some (valOfDigits l) else none

/-- The numeric part of a client id: for ids of the form CL-..., the int()
of the segment between the first and second dash; none when the id has a
different shape or the segment is not a number (the try/except path). -/
def clientIdNum (cid : String) : Option ℕ :=
  if cid.data.take 3 = ['C', 'L', '-'] then
    parseNat ((cid.data.drop 3).takeWhile (fun c => c ≠ '-'))
  else none

/-- generate_client_id: CL-001 for an empty store, else CL- followed by the
highest existing numeric id plus one, zero-padded to three digits. -/
def generate_client_id (clients : List StoredClient) : String :=
  if clients = [] then "CL-001"
  else
    "CL-" ++ String.mk (padChars 3
      ((clients.foldl (fun m c =>
        match clientIdNum c.id with
        | some n => max m n
        | none => m) 0) + 1))

/-- add_client: generate an id, stamp created/modified with the current time,
reject a missing name or email as a ValueError, fill the defaults and append
the new record; the error paths leave the stored list untouched. No email
uniqueness check is performed. -/
def add_client (now : String) (clients : List StoredClient)
    (data : NewClientData) : Except String (String × List StoredClient) :=
  if data.name = "" then Except.error "Required field name is missing"
  else if data.email = "" then Except.error "Required field email is missing"
  else
    Except.ok (generate_client_id clients, clients ++
      [{ id := generate_client_id clients, name := data.name,
         email := data.email, created_date := now, last_modified := now,
         company := data.company.getD "", address := data.address.getD "",
         city := data.city.getD "", state := data.state.getD "",
         postal_code := data.postal_code.getD "",
         country := data.country.getD "", phone := data.phone.getD "",
         website := data.website.getD "", tax_id := data.tax_id.getD "",
         payment_terms := data.payment_terms.getD "Net 30",
         currency := data.currency.getD "USD", notes := data.notes.getD "",
         billing_address := data.billing_address.getD "",
         is_active := data.is_active.getD true }])

/-- delete_client: soft delete. Walk the list; at the first record whose id
matches, set is_active to False, restamp last_modified and return True; if
no record matches, return False. Nothing is ever removed. -/
def delete_client (now cid : String) :
    List StoredClient → Bool × List StoredClient
  | [] => (false, [])
  | c :: rest =>
    if c.id = cid then
      (true, { c with is_active := false, last_modified := now } :: rest)
    else
      ((delete_client now cid rest).1, c :: (delete_client now cid rest).2)

/-- list_clients: all clients, or only those whose is_active flag is set
(the default). -/
def list_clients (clients : List StoredClient) (active_only : Bool) :
    List StoredClient :=
  if active_only then clients.filter (fun c => c.is_active) else clients

/-- A stored client, as add_client would have created it. -/
def storedAcme : StoredClient :=
  { id := "CL-001", name := "Acme", email := "billing@acme.test",
    created_date := "2025-01-01T00:00:00", last_modified := "2025-01-01T00:00:00" }

/-- New client data reusing the stored email (same letters, so equal under
any case-insensitive comparison as well). -/
def duplicateEmailData : NewClientData :=
  { name := "Acme Two", email := "billing@acme.test" }

/-! ## invoice_models.py: to_dict / from_dict serialization (C9) -/
/-- Two fixed decimal digits, as the 02d fields of isoformat. -/
def pad2c (n : ℕ) : List Char := [digitChar (n / 10), digitChar (n % 10)]

/-- Four fixed decimal digits (the year field of isoformat). -/
def pad4c (n : ℕ) : List Char := pad2c (n / 100) ++ pad2c (n % 100)

/-- Six fixed decimal digits (the microsecond field of isoformat). -/
def pad6c (n : ℕ) : List Char :=
  pad2c (n / 10000) ++ pad2c (n / 100 % 100) ++ pad2c (n % 100)

/-- datetime.isoformat(): YYYY-MM-DDTHH:MM:SS, with .ffffff appended only
when the microsecond field is nonzero. Field widths are exact for the ranges
the datetime type guarantees (year at most 9999, and so on). -/
def DateTime.isoformat (d : DateTime) : String :=
  String.mk (pad4c d.year ++ '-' :: pad2c d.month ++ '-' :: pad2c d.day ++
    'T' :: pad2c d.hour ++ ':' :: pad2c d.minute ++ ':' :: pad2c d.second ++
    (if d.microsecond = 0 then [] else '.' :: pad6c d.microsecond))

/-- Numeric value of one ASCII digit, none for a non-digit. -/
def digitVal (c : Char) : Option ℕ :=
  if c.isDigit then some (c.toNat - 48) else none

def parse2 (a b : Char) : Option ℕ := do
  let x ← digitVal a
  let y ← digitVal b
  pure (10 * x + y)

def parse4 (a b c d : Char) : Option ℕ := do
  let x ← parse2 a b
  let y ← parse2 c d
  pure (100 * x + y)

def parse6 (a b c d e f : Char) : Option ℕ := do
  let x ← parse2 a b
  let y ← parse2 c d
  let z ← parse2 e f
  pure (10000 * x + 100 * y + z)

/-- datetime.fromisoformat over the shapes isoformat emits: a bare date
(midnight), a date with a time, or a date with a time and six fractional
digits; anything else is rejected. -/
def fromisoChars : List Char → Option DateTime
  | [y1, y2, y3, y4, '-', m1, m2, '-', d1, d2] => do
    let y ← parse4 y1 y2 y3 y4
    let mo ← parse2 m1 m2
    let dd ← parse2 d1 d2
    pure ⟨y, mo, dd, 0, 0, 0, 0⟩
  | [y1, y2, y3, y4, '-', m1, m2, '-', d1, d2, 'T',
     h1, h2, ':', mi1, mi2, ':', s1, s2] => do
    let y ← parse4 y1 y2 y3 y4
    let mo ← parse2 m1 m2
    let dd ← parse2 d1 d2
    let hh ← parse2 h1 h2
    let mi ← parse2 mi1 mi2
    let ss ← parse2 s1 s2
    pure ⟨y, mo, dd, hh, mi, ss, 0⟩
  | [y1, y2, y3, y4, '-', m1, m2, '-', d1, d2, 'T',
     h1, h2, ':', mi1, mi2, ':', s1, s2, '.', u1, u2, u3, u4, u5, u6] => do
    let y ← parse4 y1 y2 y3 y4
    let mo ← parse2 m1 m2
    let dd ← parse2 d1 d2
    let hh ← parse2 h1 h2
    let mi ← parse2 mi1 mi2
    let ss ← parse2 s1 s2
    let us ← parse6 u1 u2 u3 u4 u5 u6
    pure ⟨y, mo, dd, hh, mi, ss, us⟩
  | _ => none

/-- datetime.fromisoformat on a string. -/
def DateTime.fromisoformat (s : String) : Option DateTime := fromisoChars s.data

/-- The field ranges the datetime type guarantees (wide enough for the
fixed-width rendering to be exact). -/
def ValidDateTime (d : DateTime) : Prop :=
  d.year < 10000 ∧ d.month < 100 ∧ d.day < 100 ∧ d.hour < 100 ∧
    d.minute < 100 ∧ d.second < 100 ∧ d.microsecond < 1000000

instance (d : DateTime) : Decidable (ValidDateTime d) := by
  unfold ValidDateTime; infer_instance

/-- asdict of a Client: the same fields as plain values. -/
structure ClientDict where
  name : String
  email : String
  address : String
  phone : Option String
  company : Option String
deriving DecidableEq, Repr

/-- Client.to_dict. -/
def Client.to_dict (c : Client) : ClientDict :=
  ⟨c.name, c.email, c.address, c.phone, c.company⟩

/-- Client.from_dict: cls(**data). -/
def Client.from_dict (d : ClientDict) : Client :=
  ⟨d.name, d.email, d.address, d.phone, d.company⟩

/-- asdict of an InvoiceItem. -/
structure InvoiceItemDict where
  description : String
  quantity : ℚ
  rate : ℚ
  unit : String
deriving DecidableEq, Repr

/-- InvoiceItem.to_dict. -/
def InvoiceItem.to_dict (it : InvoiceItem) : InvoiceItemDict :=
  ⟨it.description, it.quantity, it.rate, it.unit⟩

/-- InvoiceItem.from_dict: cls(**data). -/
def InvoiceItem.from_dict (d : InvoiceItemDict) : InvoiceItem :=
  ⟨d.description, d.quantity, d.rate, d.unit⟩

/-- asdict of an Invoice with the two datetime entries replaced by their ISO
strings, as Invoice.to_dict builds it. -/
structure InvoiceDict where
  invoice_number : String
  client : ClientDict
  items : List InvoiceItemDict
  issue_date : String
  due_date : String
  business_name : String
  business_address : String
  business_email : String
  business_phone : Option String
  tax_rate : ℚ
  notes : Option String
  payment_terms : Option String
  currency : String
  status : String
  discount_percentage : ℚ
deriving DecidableEq, Repr

/-- Invoice.to_dict: asdict with the dates converted to ISO strings. -/
def Invoice.to_dict (inv : Invoice) : InvoiceDict :=
  { invoice_number := inv.invoice_number
    client := inv.client.to_dict
    items := inv.items.map InvoiceItem.to_dict
    issue_date := inv.issue_date.isoformat
    due_date := inv.due_date.isoformat
    business_name := inv.business_name
    business_address := inv.business_address
    business_email := inv.business_email
    business_phone := inv.business_phone
    tax_rate := inv.tax_rate
    notes := inv.notes
    payment_terms := inv.payment_terms
    currency := inv.currency
    status := inv.status
    discount_percentage := inv.discount_percentage }

/-- Invoice.from_dict: parse the ISO date strings back (a failed parse is the
ValueError datetime.fromisoformat raises), rebuild the client and the items,
and construct the invoice. -/
def Invoice.from_dict (d : InvoiceDict) : Option Invoice := do
  let issue ← DateTime.fromisoformat d.issue_date
  let due ← DateTime.fromisoformat d.due_date
  pure
    { invoice_number := d.invoice_number
      client := Client.from_dict d.client
      items := d.items.map InvoiceItem.from_dict
      issue_date := issue
      due_date := due
      business_name := d.business_name
      business_address := d.business_address
      business_email := d.business_email
      business_phone := d.business_phone
      tax_rate := d.tax_rate
      notes := d.notes
      payment_terms := d.payment_terms
      currency := d.currency
      status := d.status
      discount_percentage := d.discount_percentage }

/-! ## Theorems -/

theorem decReprGo_append (n : ℕ) : ∀ fuel acc, n ≤ fuel ∨ n < 10 →
    decReprGo fuel n acc = decRepr n ++ acc := by
  induction n using Nat.strong_induction_on with
  | _ n ih =>
    intro fuel acc h
    by_cases hn : n < 10
    · have h1 : decReprGo fuel n acc = digitChar n :: acc := by
        cases fuel with
        | zero => rfl
        | succ f => simp [decReprGo, hn]
      have h2 : decRepr n = [digitChar n] := by
        rw [decRepr]
        cases n with
        | zero => rfl
        | succ m => simp [decReprGo, hn]
      rw [h1, h2]
      rfl
    · obtain ⟨f, rfl⟩ : ∃ f, fuel = f + 1 := ⟨fuel - 1, by omega⟩
      have h1 : decReprGo (f + 1) n acc =
          decReprGo f (n / 10) (digitChar (n % 10) :: acc) := by
        simp [decReprGo, hn]
      have h2 : decRepr n = decRepr (n / 10) ++ [digitChar (n % 10)] := by
        obtain ⟨m, rfl⟩ : ∃ m, n = m + 1 := ⟨n - 1, by omega⟩
        rw [decRepr]
        have hstep : decReprGo (m + 1) (m + 1) [] =
            decReprGo m ((m + 1) / 10) (digitChar ((m + 1) % 10) :: []) := by
          simp [decReprGo, hn]
        rw [hstep]
        exact ih ((m + 1) / 10) (by omega) m _ (by omega)
      rw [h1, ih (n / 10) (by omega) f _ (by omega), h2, List.append_assoc]
      rfl

/-- The defining recursion of decRepr, stated without fuel. -/
theorem decRepr_eq (n : ℕ) :
    decRepr n = if n < 10 then [digitChar n]
      else decRepr (n / 10) ++ [digitChar (n % 10)] := by
  by_cases hn : n < 10
  · rw [if_pos hn, decRepr]
    cases n with
    | zero => rfl
    | succ m => simp [decReprGo, hn]
  · rw [if_neg hn]
    obtain ⟨m, rfl⟩ : ∃ m, n = m + 1 := ⟨n - 1, by omega⟩
    rw [decRepr]
    have hstep : decReprGo (m + 1) (m + 1) [] =
        decReprGo m ((m + 1) / 10) (digitChar ((m + 1) % 10) :: []) := by
      simp [decReprGo, hn]
    rw [hstep]
    exact decReprGo_append ((m + 1) / 10) m _ (by omega)

theorem toNat_digitChar (d : ℕ) (h : d < 10) : (digitChar d).toNat = 48 + d := by
  interval_cases d <;> decide

theorem valOfDigits_decRepr (n : ℕ) : valOfDigits (decRepr n) = n := by
  induction n using Nat.strong_induction_on with
  | _ n ih =>
    rw [decRepr_eq]
    by_cases h : n < 10
    · simp only [if_pos h, valOfDigits, List.foldl_cons, List.foldl_nil]
      rw [toNat_digitChar n h]; omega
    · rw [if_neg h]
      have hv : valOfDigits (decRepr (n / 10) ++ [digitChar (n % 10)]) =
          10 * valOfDigits (decRepr (n / 10)) + ((digitChar (n % 10)).toNat - 48) := by
        rw [valOfDigits, List.foldl_append]
        rfl
      rw [hv, ih (n / 10) (by omega), toNat_digitChar (n % 10) (by omega)]
      omega

theorem decRepr_injective : Function.Injective decRepr := by
  intro a b h
  have := valOfDigits_decRepr a
  rw [h, valOfDigits_decRepr] at this
  omega

theorem valOfDigits_replicate_zero_append (k : ℕ) (l : List Char) :
    valOfDigits (List.replicate k '0' ++ l) = valOfDigits l := by
  induction k with
  | zero => simp
  | succ k ih => simpa [valOfDigits, List.replicate_succ] using ih

theorem valOfDigits_padChars (w n : ℕ) : valOfDigits (padChars w n) = n := by
  rw [padChars, valOfDigits_replicate_zero_append, valOfDigits_decRepr]

theorem padChars_injective (w : ℕ) : Function.Injective (padChars w) := by
  intro a b h
  have := valOfDigits_padChars w a
  rw [h, valOfDigits_padChars] at this
  omega

theorem pad4_injective : Function.Injective pad4 := by
  intro a b h
  exact padChars_injective 4 (congrArg String.data h)

theorem rhe_intCast (n : ℤ) : rhe (n : ℚ) = n := by
  simp [rhe]

theorem TwoDec.round2_eq {q : ℚ} (h : TwoDec q) : round2 q = q := by
  obtain ⟨n, rfl⟩ := h
  rw [round2, div_mul_cancel₀ _ (by norm_num : (100 : ℚ) ≠ 0), rhe_intCast]

theorem twoDec_round2 (q : ℚ) : TwoDec (round2 q) := ⟨rhe (q * 100), rfl⟩

theorem TwoDec.add {a b : ℚ} (ha : TwoDec a) (hb : TwoDec b) : TwoDec (a + b) := by
  obtain ⟨m, rfl⟩ := ha; obtain ⟨n, rfl⟩ := hb
  exact ⟨m + n, by push_cast; ring⟩

theorem TwoDec.sub {a b : ℚ} (ha : TwoDec a) (hb : TwoDec b) : TwoDec (a - b) := by
  obtain ⟨m, rfl⟩ := ha; obtain ⟨n, rfl⟩ := hb
  exact ⟨m - n, by push_cast; ring⟩

theorem twoDec_zero : TwoDec 0 := ⟨0, by norm_num⟩

theorem twoDec_sum {l : List ℚ} (h : ∀ x ∈ l, TwoDec x) : TwoDec l.sum := by
  induction l with
  | nil => simpa using twoDec_zero
  | cons a l ih =>
    rw [List.sum_cons]
    exact (h a (by simp)).add (ih fun x hx => h x (by simp [hx]))

theorem twoDec_subtotal (inv : Invoice) : TwoDec inv.subtotal := twoDec_round2 _

theorem subtotal_eq_sum_totals (inv : Invoice) :
    inv.subtotal = (inv.items.map InvoiceItem.total).sum := by
  apply TwoDec.round2_eq
  apply twoDec_sum
  intro x hx
  obtain ⟨it, _, rfl⟩ := List.mem_map.mp hx
  exact twoDec_round2 _

/-- Claim C1: every derived financial value follows the step-wise rounded
pipeline: item.total = round(quantity*rate, 2); subtotal = sum of item totals;
discount_amount = round(subtotal*discount_percentage/100, 2);
subtotal_after_discount = subtotal - discount_amount;
tax_amount = round(subtotal_after_discount*tax_rate/100, 2);
total = subtotal_after_discount + tax_amount, rounding applied at each step. -/
theorem c1_stepwise_rounded_pipeline (inv : Invoice) :
    (∀ it ∈ inv.items, it.total = round2 (it.quantity * it.rate)) ∧
    inv.subtotal = (inv.items.map InvoiceItem.total).sum ∧
    inv.discount_amount = round2 (inv.subtotal * inv.discount_percentage / 100) ∧
    inv.subtotal_after_discount = inv.subtotal - inv.discount_amount ∧
    inv.tax_amount = round2 (inv.subtotal_after_discount * inv.tax_rate / 100) ∧
    inv.total = inv.subtotal_after_discount + inv.tax_amount := by
  refine ⟨fun it _ => rfl, subtotal_eq_sum_totals inv, rfl, ?_, rfl, ?_⟩
  · exact TwoDec.round2_eq ((twoDec_round2 _).sub (twoDec_round2 _))
  · exact TwoDec.round2_eq ((twoDec_round2 _).add (twoDec_round2 _))

theorem c1_stepwise_rounded_pipeline_witness :
    invoiceExample.total = invoiceExample.subtotal_after_discount + invoiceExample.tax_amount ∧
    (⟨"Development", 10, 50, "hours"⟩ : InvoiceItem).total = round2 ((10 : ℚ) * 50) :=
  ⟨(c1_stepwise_rounded_pipeline invoiceExample).2.2.2.2.2,
   (c1_stepwise_rounded_pipeline invoiceExample).1 _ (by simp [invoiceExample])⟩

/-- Claim C3: is_overdue holds iff the due date is strictly before the current
date and the status is in the awaiting-payment set (pending for the dataclass
model of invoice_models.py, sent for the Django model); it is false for
draft, paid and cancelled invoices regardless of the date. -/
theorem c3_is_overdue_iff (today : Date) (inv : Invoice) (dj : DjangoInvoice) :
    (inv.is_overdue today = true ↔
      Date.lt inv.due_date.date today ∧ inv.status = "pending") ∧
    (dj.is_overdue today = true ↔
      Date.lt dj.due_date today ∧ dj.status = "sent") ∧
    (inv.status = "draft" ∨ inv.status = "paid" ∨ inv.status = "cancelled" →
      inv.is_overdue today = false) ∧
    (dj.status = "draft" ∨ dj.status = "paid" ∨ dj.status = "cancelled" →
      dj.is_overdue today = false) := by
  refine ⟨?_, ?_, ?_, ?_⟩
  · simp [Invoice.is_overdue, Bool.and_eq_true]
  · simp [DjangoInvoice.is_overdue, Bool.and_eq_true]
  · rintro (h | h | h) <;> simp [Invoice.is_overdue, h]
  · rintro (h | h | h) <;> simp [DjangoInvoice.is_overdue, h]

theorem c3_is_overdue_iff_witness :
    paidInvoiceExample.is_overdue ⟨2026, 10, 12⟩ = false ∧
    sentDjangoInvoiceExample.is_overdue ⟨2026, 10, 12⟩ = true :=
  ⟨(c3_is_overdue_iff ⟨2026, 10, 12⟩ paidInvoiceExample sentDjangoInvoiceExample).2.2.1
      (Or.inr (Or.inl rfl)),
   (c3_is_overdue_iff ⟨2026, 10, 12⟩ paidInvoiceExample sentDjangoInvoiceExample).2.1.mpr
      ⟨by decide, rfl⟩⟩

theorem string_append_left_cancel {a b c : String} (h : a ++ b = a ++ c) :
    b = c := by
  have hd := congrArg String.data h
  rw [String.data_append, String.data_append] at hd
  exact congrArg String.mk (List.append_cancel_left hd)

theorem Company.allocate_eq_map (co : Company) (N : ℕ) :
    co.allocate N = (List.range N).map
      (fun k => co.invoicePrefix ++ "-" ++ pad4 (co.invoice_counter + k)) := by
  induction N generalizing co with
  | zero => rfl
  | succ n ih =>
    rw [Company.allocate, ih, List.range_succ_eq_map, List.map_cons, List.map_map]
    refine congrArg₂ List.cons ?_ (List.map_congr_left ?_)
    · simp [Company.get_next_invoice_number]
    · intro k _
      simp only [Company.get_next_invoice_number, Function.comp_apply]
      have h1 : co.invoice_counter + 1 + k = co.invoice_counter + (k + 1) := by omega
      rw [h1]

theorem Company.allocate_nodup (co : Company) (N : ℕ) :
    (co.allocate N).Nodup := by
  rw [Company.allocate_eq_map]
  refine (List.nodup_range N).map_on ?_
  intro a _ b _ h
  have h2 := string_append_left_cancel h
  have h3 := pad4_injective h2
  omega

/-- Claim C2: one call to the allocator returns prefix-counter:04d and leaves
the stored counter incremented by one; N sequential allocations starting at
counter c produce the numbers for counters c, c+1, ..., c+N-1 in order
(strictly increasing, gap-free when starting from the initial counter 1) and
they are pairwise distinct. The config-file allocator of invoice_generator.py
behaves identically with the fixed prefix INV. -/
theorem c2_next_invoice_number (co : Company) (cfg : GeneratorConfig) (N : ℕ) :
    co.get_next_invoice_number.1 =
      co.invoicePrefix ++ "-" ++ pad4 co.invoice_counter ∧
    co.get_next_invoice_number.2 =
      { co with invoice_counter := co.invoice_counter + 1 } ∧
    cfg.get_next_invoice_number.1 = "INV-" ++ pad4 cfg.invoice_counter ∧
    cfg.get_next_invoice_number.2 =
      { cfg with invoice_counter := cfg.invoice_counter + 1 } ∧
    co.allocate N = (List.range N).map
      (fun k => co.invoicePrefix ++ "-" ++ pad4 (co.invoice_counter + k)) ∧
    (co.allocate N).Nodup :=
  ⟨rfl, rfl, rfl, rfl, Company.allocate_eq_map co N, Company.allocate_nodup co N⟩

theorem c2_next_invoice_number_witness :
    ({ invoicePrefix := "INV", invoice_counter := 1 } : Company).allocate 3 =
      ["INV-0001", "INV-0002", "INV-0003"] ∧
    (({ invoicePrefix := "INV", invoice_counter := 1 } : Company).allocate 3).Nodup :=
  ⟨by decide,
   (c2_next_invoice_number { invoicePrefix := "INV", invoice_counter := 1 }
      { invoice_counter := 1 } 3).2.2.2.2.2⟩

/-- Counterexample to claim C4 at currency INR: Invoice.format_amount resolves
INR through the six-entry table of invoice_models.py, which lacks INR, so the
rendered amount starts with the default dollar sign rather than the rupee
symbol the claimed table requires. -/
theorem c4_format_amount_counterexample :
    ({ invoiceExample with currency := "INR" } : Invoice).format_amount 0 ≠
      claimedFormatSymbols "INR" ++ fmtComma2 0 := by
  intro h
  have h1 : ({ invoiceExample with currency := "INR" } : Invoice).get_currency_symbol
      = "$" := by decide
  have h2 : claimedFormatSymbols "INR" = "₹" := by decide
  rw [Invoice.format_amount, h1, h2] at h
  have hd := congrArg String.data h
  rw [String.data_append, String.data_append] at hd
  simp at hd

/-- Claim C4 as amended: format_amount prefixes the thousands-separated
two-decimal rendering with the symbol resolved from the six-entry table of
invoice_models.py (USD, EUR, GBP, CAD, AUD, JPY), and every other currency
code, including CNY and INR, resolves to the default dollar sign; the
extended table that maps CNY to the yen sign and INR to the rupee sign
exists only on Company.get_currency_symbol, which format_amount does not
consult. -/
theorem c4_format_amount_amended (inv : Invoice) (x : ℚ) :
    inv.format_amount x =
      ((invoiceCurrencySymbols.lookup inv.currency).getD "$") ++ fmtComma2 x ∧
    (inv.currency ∉ ["USD", "EUR", "GBP", "CAD", "AUD", "JPY"] →
      inv.format_amount x = "$" ++ fmtComma2 x) ∧
    Company.get_currency_symbol { currency := "CNY" } = "¥" ∧
    Company.get_currency_symbol { currency := "INR" } = "₹" := by
  refine ⟨rfl, ?_, by decide, by decide⟩
  intro h
  simp only [List.mem_cons, not_or, List.not_mem_nil] at h
  obtain ⟨h1, h2, h3, h4, h5, h6, -⟩ := h
  rw [Invoice.format_amount, Invoice.get_currency_symbol, invoiceCurrencySymbols]
  rw [List.lookup, show (inv.currency == "USD") = false from beq_eq_false_iff_ne.mpr h1,
    List.lookup, show (inv.currency == "EUR") = false from beq_eq_false_iff_ne.mpr h2,
    List.lookup, show (inv.currency == "GBP") = false from beq_eq_false_iff_ne.mpr h3,
    List.lookup, show (inv.currency == "CAD") = false from beq_eq_false_iff_ne.mpr h4,
    List.lookup, show (inv.currency == "AUD") = false from beq_eq_false_iff_ne.mpr h5,
    List.lookup, show (inv.currency == "JPY") = false from beq_eq_false_iff_ne.mpr h6]
  rfl

theorem c4_format_amount_amended_witness :
    ("XYZ" : String) ∉ ["USD", "EUR", "GBP", "CAD", "AUD", "JPY"] ∧
    ({ invoiceExample with currency := "XYZ" } : Invoice).format_amount (2469 / 2) =
      "$" ++ fmtComma2 (2469 / 2) :=
  ⟨by decide, (c4_format_amount_amended { invoiceExample with currency := "XYZ" }
    (2469 / 2)).2.1 (by decide)⟩

/-- Counterexample to claim C6: with no explicit payment terms and the due
date 30 days after the issue date, the rendered line is not the claimed
"due within 30 days" text: the code appends "of invoice date" whenever the
derived day count exceeds 15. -/
theorem c6_payment_terms_counterexample :
    paymentTermsLine none 30 ≠ "Payment due within 30 days" ∧
    paymentTermsLine none 30 = "Payment due within 30 days of invoice date" := by
  constructor
  · decide
  · decide

/-- Claim C6 as amended: an explicit non-empty payment_terms string is
rendered verbatim; otherwise the line is derived from the dates as
"Payment due upon receipt" when due_date is at most issue_date,
"Payment due within N days" when N = due_date - issue_date is between 1 and
15 days, and "Payment due within N days of invoice date" when N exceeds 15. -/
theorem c6_payment_terms (pt : Option String) (issueDay dueDay : ℤ) :
    (∀ s, pt = some s → s ≠ "" →
      paymentTermsLine pt (dueDay - issueDay) = s) ∧
    (pt = none ∨ pt = some "" → dueDay ≤ issueDay →
      paymentTermsLine pt (dueDay - issueDay) = "Payment due upon receipt") ∧
    (pt = none ∨ pt = some "" → issueDay < dueDay → dueDay - issueDay ≤ 15 →
      paymentTermsLine pt (dueDay - issueDay) =
        "Payment due within " ++ String.mk (decRepr (dueDay - issueDay).toNat)
          ++ " days") ∧
    (pt = none ∨ pt = some "" → 15 < dueDay - issueDay →
      paymentTermsLine pt (dueDay - issueDay) =
        "Payment due within " ++ String.mk (decRepr (dueDay - issueDay).toNat)
          ++ " days of invoice date") := by
  refine ⟨?_, ?_, ?_, ?_⟩
  · rintro s rfl hs
    simp [paymentTermsLine, hs]
  · rintro (rfl | rfl) h <;>
      simp [paymentTermsLine, derivedPaymentTerms, show dueDay - issueDay ≤ 0 by omega]
  · rintro (rfl | rfl) h1 h2 <;>
      simp [paymentTermsLine, derivedPaymentTerms,
        show ¬dueDay - issueDay ≤ 0 by omega, h2]
  · rintro (rfl | rfl) h <;>
      simp [paymentTermsLine, derivedPaymentTerms,
        show ¬dueDay - issueDay ≤ 0 by omega, show ¬dueDay - issueDay ≤ 15 by omega]

theorem c6_payment_terms_witness :
    paymentTermsLine (some "Net 30") 9 = "Net 30" ∧
    paymentTermsLine none (10 - 3) = "Payment due within 7 days" :=
  ⟨(c6_payment_terms (some "Net 30") 1 10).1 "Net 30" rfl (by decide),
   by
    have h := (c6_payment_terms none 3 10).2.2.1 (Or.inl rfl) (by omega) (by omega)
    rw [h]
    decide⟩

theorem isDigit_digitChar (d : ℕ) (h : d < 10) : (digitChar d).isDigit = true := by
  interval_cases d <;> decide

theorem decRepr_all_digits (n : ℕ) : ∀ c ∈ decRepr n, c.isDigit = true := by
  induction n using Nat.strong_induction_on with
  | _ n ih =>
    rw [decRepr_eq]
    by_cases h : n < 10
    · rw [if_pos h]
      intro c hc
      rw [List.mem_singleton] at hc
      exact hc ▸ isDigit_digitChar n h
    · rw [if_neg h]
      intro c hc
      rcases List.mem_append.mp hc with hc | hc
      · exact ih (n / 10) (by omega) c hc
      · rw [List.mem_singleton] at hc
        exact hc ▸ isDigit_digitChar (n % 10) (by omega)

/-- fmtFixed2 always ends in a dot and exactly two decimal digits, with no
dot before that. -/
theorem fmtFixed2_shape (q : ℚ) :
    ∃ s : String, ∃ d1 d2 : ℕ,
      fmtFixed2 q = s ++ "." ++ String.mk [digitChar d1, digitChar d2] ∧
      d1 < 10 ∧ d2 < 10 ∧ '.' ∉ s.data := by
  refine ⟨(if rhe (q * 100) < 0 then "-" else "") ++
      String.mk (decRepr ((rhe (q * 100)).natAbs / 100)),
    (rhe (q * 100)).natAbs % 100 / 10, (rhe (q * 100)).natAbs % 10,
    rfl, by omega, by omega, ?_⟩
  intro hmem
  rw [String.data_append] at hmem
  rcases List.mem_append.mp hmem with hmem | hmem
  · by_cases hneg : rhe (q * 100) < 0
    · rw [if_pos hneg] at hmem
      simp at hmem
    · rw [if_neg hneg] at hmem
      simp at hmem
  · have := decRepr_all_digits ((rhe (q * 100)).natAbs / 100) '.' hmem
    simp at this

/-- Counterexample to claim C7: the empty unit is not in the abbreviation
table, yet it does not pass through unchanged: the code displays it as each. -/
theorem c7_items_table_counterexample :
    unitDisplayMap.lookup "" = none ∧
    unitFormatted "" = "each" ∧ unitFormatted "" ≠ "" := by
  refine ⟨by decide, by decide, by decide⟩

/-- Claim C7 as amended: the quantity is displayed as an integer (no decimal
point) exactly when it is whole and with exactly two decimals otherwise; the
unit is first stripped, a blank unit displays as each, and otherwise the
stripped unit is looked up in the abbreviation table by its lowercased form
(hours to hrs, pieces to pcs, ...), the stripped form passing through
unchanged when the table has no entry for it. -/
theorem c7_items_table_amended (q : ℚ) (u : String) :
    (q.den = 1 →
      qtyFormatted q =
        (if q.num < 0 then "-" else "") ++ String.mk (decRepr q.num.natAbs) ∧
      '.' ∉ (qtyFormatted q).data) ∧
    (q.den ≠ 1 →
      qtyFormatted q = fmtFixed2 q ∧
      ∃ s : String, ∃ d1 d2 : ℕ,
        qtyFormatted q = s ++ "." ++ String.mk [digitChar d1, digitChar d2] ∧
        d1 < 10 ∧ d2 < 10 ∧ '.' ∉ s.data) ∧
    (strip u = "" → unitFormatted u = "each") ∧
    (strip u ≠ "" →
      unitFormatted u =
        (unitDisplayMap.lookup (lowerString (strip u))).getD (strip u)) ∧
    (strip u ≠ "" → unitDisplayMap.lookup (lowerString (strip u)) = none →
      unitFormatted u = strip u) ∧
    unitFormatted "hours" = "hrs" ∧ unitFormatted "pieces" = "pcs" := by
  have hu_of_strip : strip u ≠ "" → u ≠ "" := by
    intro h he
    exact h (by rw [he]; decide)
  refine ⟨?_, ?_, ?_, ?_, ?_, by decide, by decide⟩
  · intro h
    refine ⟨by rw [qtyFormatted, if_pos h], ?_⟩
    rw [qtyFormatted, if_pos h]
    intro hmem
    rw [String.data_append] at hmem
    rcases List.mem_append.mp hmem with hmem | hmem
    · by_cases hneg : q.num < 0
      · rw [if_pos hneg] at hmem
        simp at hmem
      · rw [if_neg hneg] at hmem
        simp at hmem
    · have := decRepr_all_digits q.num.natAbs '.' hmem
      simp at this
  · intro h
    refine ⟨by rw [qtyFormatted, if_neg h], ?_⟩
    rw [qtyFormatted, if_neg h]
    exact fmtFixed2_shape q
  · intro h
    rw [unitFormatted]
    simp only [h, ne_eq, not_true_eq_false, and_false, if_false]
    decide
  · intro h
    rw [unitFormatted]
    simp only [ne_eq, h, not_false_iff, and_true, hu_of_strip h, if_true]
  · intro h hnone
    rw [unitFormatted]
    simp only [ne_eq, h, not_false_iff, and_true, hu_of_strip h, if_true, hnone,
      Option.getD_none]

theorem c7_items_table_amended_witness :
    ((3 : ℚ).den = 1 ∧ qtyFormatted 3 = "3") ∧
    (strip " HOURS " ≠ "" ∧ unitFormatted " HOURS " = "hrs") :=
  ⟨⟨by decide, by
    have h := ((c7_items_table_amended 3 "x").1 (by decide)).1
    rw [h]
    decide⟩,
   ⟨by decide, by
    have h := (c7_items_table_amended 3 " HOURS ").2.2.2.1 (by decide)
    rw [h]
    decide⟩⟩

theorem round2_eval {q : ℚ} (c : ℤ) (h : q = (c : ℚ) / 100) : round2 q = q :=
  TwoDec.round2_eq ⟨c, h⟩

theorem fmtFixed2_cents (c : ℤ) :
    fmtFixed2 ((c : ℚ) / 100) = (if c < 0 then "-" else "") ++
      String.mk (decRepr (c.natAbs / 100)) ++ "." ++
      String.mk [digitChar (c.natAbs % 100 / 10), digitChar (c.natAbs % 10)] := by
  rw [fmtFixed2, div_mul_cancel₀ _ (by norm_num : (100 : ℚ) ≠ 0), rhe_intCast]

theorem rhe_round2_mul (q : ℚ) : rhe (round2 q * 100) = rhe (q * 100) := by
  rw [round2, div_mul_cancel₀ _ (by norm_num : (100 : ℚ) ≠ 0), rhe_intCast]

theorem fmtFixed2_round2 (q : ℚ) : fmtFixed2 (round2 q) = fmtFixed2 q := by
  simp only [fmtFixed2, rhe_round2_mul]

theorem discountedInvoiceExample_subtotal :
    pdfSummarySubtotal discountedInvoiceExample = 100 := by
  rw [pdfSummarySubtotal]
  show (InvoiceItem.total
      { description := "Consulting", quantity := 1, rate := 100,
        unit := "hours" } + 0) = 100
  rw [InvoiceItem.total]
  rw [round2_eval 10000 (by norm_num)]
  norm_num

theorem discountedInvoiceExample_total :
    discountedInvoiceExample.total = 90 := by
  have h1 : discountedInvoiceExample.subtotal = 100 := by
    rw [Invoice.subtotal]
    rw [show (discountedInvoiceExample.items.map InvoiceItem.total).sum =
      pdfSummarySubtotal discountedInvoiceExample from rfl,
      discountedInvoiceExample_subtotal]
    exact round2_eval 10000 (by norm_num)
  have h2 : discountedInvoiceExample.discount_amount = 10 := by
    rw [Invoice.discount_amount, h1]
    rw [show (100 : ℚ) * discountedInvoiceExample.discount_percentage / 100 =
      10 from by norm_num [discountedInvoiceExample, invoiceExample]]
    exact round2_eval 1000 (by norm_num)
  have h3 : discountedInvoiceExample.subtotal_after_discount = 90 := by
    rw [Invoice.subtotal_after_discount, h1, h2]
    rw [show (100 : ℚ) - 10 = 90 from by norm_num]
    exact round2_eval 9000 (by norm_num)
  have h4 : discountedInvoiceExample.tax_amount = 0 := by
    rw [Invoice.tax_amount, h3]
    rw [show (90 : ℚ) * discountedInvoiceExample.tax_rate / 100 = 0 from by
      norm_num [discountedInvoiceExample, invoiceExample]]
    exact round2_eval 0 (by norm_num)
  rw [Invoice.total, h3, h4]
  rw [show (90 : ℚ) + 0 = 90 from by norm_num]
  exact round2_eval 9000 (by norm_num)

/-- Counterexample to claim C5: for the discounted invoice the summary block
renders no discount line at all, and the total it shows is the undiscounted
100.00 while the invoice model's reference total is 90.00. -/
theorem c5_summary_counterexample :
    0 < discountedInvoiceExample.discount_percentage ∧
    (∀ r ∈ pdfSummaryRows discountedInvoiceExample,
      r.1 ≠ SummaryRowKind.discountRow) ∧
    pdfSummaryRows discountedInvoiceExample =
      [(SummaryRowKind.subtotalRow, "$100.00"),
       (SummaryRowKind.totalRow, "$100.00")] ∧
    "$" ++ fmtFixed2 discountedInvoiceExample.total = "$90.00" := by
  have hfmt100 : fmtFixed2 (100 : ℚ) = "100.00" := by
    rw [show (100 : ℚ) = ((10000 : ℤ) : ℚ) / 100 from by norm_num, fmtFixed2_cents]
    decide
  have htax : pdfSummaryTax discountedInvoiceExample = 0 := by
    rw [pdfSummaryTax]
    simp [discountedInvoiceExample]
  have hrows : pdfSummaryRows discountedInvoiceExample =
      [(SummaryRowKind.subtotalRow, "$100.00"),
       (SummaryRowKind.totalRow, "$100.00")] := by
    rw [pdfSummaryRows]
    rw [if_neg (by simp [discountedInvoiceExample])]
    rw [pdfSummaryTotal, htax, discountedInvoiceExample_subtotal]
    rw [show (100 : ℚ) + 0 = 100 from by norm_num, hfmt100]
    rfl
  refine ⟨by norm_num [discountedInvoiceExample], ?_, hrows, ?_⟩
  · intro r hr
    rw [hrows] at hr
    rcases List.mem_cons.mp hr with hr | hr
    · rw [hr]
      decide
    · rw [List.mem_singleton.mp hr]
      decide
  · rw [discountedInvoiceExample_total,
      show (90 : ℚ) = ((9000 : ℤ) : ℚ) / 100 from by norm_num, fmtFixed2_cents]
    decide

theorem subtotal_after_discount_of_zero_discount {inv : Invoice}
    (h : inv.discount_percentage = 0) :
    inv.subtotal_after_discount = inv.subtotal := by
  have hd : inv.discount_amount = 0 := by
    rw [Invoice.discount_amount, h, mul_zero, zero_div]
    exact round2_eval 0 (by norm_num)
  rw [Invoice.subtotal_after_discount, hd, sub_zero]
  exact (twoDec_round2 _).round2_eq

theorem tax_amount_eq_pdfSummaryTax {inv : Invoice}
    (h : inv.discount_percentage = 0) (ht : TwoDec (pdfSummaryTax inv)) :
    inv.tax_amount = pdfSummaryTax inv := by
  rw [Invoice.tax_amount, subtotal_after_discount_of_zero_discount h,
    subtotal_eq_sum_totals]
  by_cases hr : inv.tax_rate ≠ 0
  · rw [pdfSummaryTax, if_pos hr] at ht ⊢
    rw [show (inv.items.map InvoiceItem.total).sum * inv.tax_rate / 100 =
      pdfSummarySubtotal inv * (inv.tax_rate / 100) from by
        rw [pdfSummarySubtotal, mul_div_assoc]]
    exact ht.round2_eq
  · rw [not_not] at hr
    rw [pdfSummaryTax, if_neg (by rw [hr]; simp), hr, mul_zero, zero_div]
    exact round2_eval 0 (by norm_num)

/-- Claim C5 as amended: the summary block always shows a subtotal line, a
tax line exactly when tax_rate is positive, and an emphasized total line as
the last row, and never a discount line; the subtotal shown always equals the
invoice model's subtotal; because the block recomputes tax and total from the
pre-discount subtotal without intermediate rounding, the shown tax equals the
model's tax_amount only when discount_percentage is zero, and the shown total
equals the model's total only when additionally the raw tax has at most two
decimal places. -/
theorem c5_summary_amended (inv : Invoice) :
    (pdfSummaryRows inv).map Prod.fst =
      [SummaryRowKind.subtotalRow] ++
        (if 0 < inv.tax_rate then [SummaryRowKind.taxRow] else []) ++
        [SummaryRowKind.totalRow] ∧
    (∀ r ∈ pdfSummaryRows inv, r.1 ≠ SummaryRowKind.discountRow) ∧
    (pdfSummaryRows inv).getLast? =
      some (SummaryRowKind.totalRow, "$" ++ fmtFixed2 (pdfSummaryTotal inv)) ∧
    (SummaryRowKind.subtotalRow, "$" ++ fmtFixed2 inv.subtotal) ∈
      pdfSummaryRows inv ∧
    (inv.discount_percentage = 0 → 0 < inv.tax_rate →
      (SummaryRowKind.taxRow, "$" ++ fmtFixed2 inv.tax_amount) ∈
        pdfSummaryRows inv) ∧
    (inv.discount_percentage = 0 → TwoDec (pdfSummaryTax inv) →
      (SummaryRowKind.totalRow, "$" ++ fmtFixed2 inv.total) ∈
        pdfSummaryRows inv) := by
  have hiff : (inv.tax_rate ≠ 0 ∧ 0 < inv.tax_rate) ↔ 0 < inv.tax_rate :=
    ⟨fun h => h.2, fun h => ⟨ne_of_gt h, h⟩⟩
  refine ⟨?_, ?_, ?_, ?_, ?_, ?_⟩
  · rw [pdfSummaryRows]
    by_cases hc : 0 < inv.tax_rate
    · rw [if_pos (hiff.mpr hc), if_pos hc]
      rfl
    · rw [if_neg (fun hx => hc (hiff.mp hx)), if_neg hc]
      rfl
  · intro r hr
    rw [pdfSummaryRows] at hr
    by_cases hc : inv.tax_rate ≠ 0 ∧ 0 < inv.tax_rate
    · rw [if_pos hc] at hr
      simp only [List.cons_append, List.nil_append, List.mem_cons,
        List.not_mem_nil, or_false] at hr
      rcases hr with h | h | h <;> subst h <;> simp
    · rw [if_neg hc] at hr
      simp only [List.cons_append, List.nil_append, List.mem_cons,
        List.not_mem_nil, or_false] at hr
      rcases hr with h | h <;> subst h <;> simp
  · rw [pdfSummaryRows]
    by_cases hc : inv.tax_rate ≠ 0 ∧ 0 < inv.tax_rate
    · rw [if_pos hc]
      rfl
    · rw [if_neg hc]
      rfl
  · have hcell : fmtFixed2 inv.subtotal = fmtFixed2 (pdfSummarySubtotal inv) := by
      rw [show inv.subtotal = round2 (pdfSummarySubtotal inv) from rfl,
        fmtFixed2_round2]
    rw [pdfSummaryRows, hcell]
    exact List.mem_append_left _ (List.mem_append_left _ (List.mem_singleton.mpr rfl))
  · intro hd hrate
    have hcell : fmtFixed2 inv.tax_amount = fmtFixed2 (pdfSummaryTax inv) := by
      rw [Invoice.tax_amount, subtotal_after_discount_of_zero_discount hd,
        subtotal_eq_sum_totals, fmtFixed2_round2, pdfSummaryTax,
        if_pos (hiff.mpr hrate).1]
      rw [show (inv.items.map InvoiceItem.total).sum * inv.tax_rate / 100 =
        pdfSummarySubtotal inv * (inv.tax_rate / 100) from by
          rw [pdfSummarySubtotal, mul_div_assoc]]
    rw [pdfSummaryRows, hcell, if_pos (hiff.mpr hrate)]
    exact List.mem_append_left _
      (List.mem_append_right _ (List.mem_singleton.mpr rfl))
  · intro hd ht
    have htotal : inv.total = pdfSummaryTotal inv := by
      rw [Invoice.total, subtotal_after_discount_of_zero_discount hd,
        tax_amount_eq_pdfSummaryTax hd ht, pdfSummaryTotal,
        subtotal_eq_sum_totals]
      exact TwoDec.round2_eq
        ((twoDec_sum fun x hx => by
          obtain ⟨it, _, rfl⟩ := List.mem_map.mp hx
          exact twoDec_round2 _).add ht)
    rw [pdfSummaryRows, htotal]
    exact List.mem_append_right _ (List.mem_singleton.mpr rfl)

theorem round2_of_eq (c : ℤ) (q : ℚ) (h : q = (c : ℚ) / 100) : round2 q = q :=
  TwoDec.round2_eq ⟨c, h⟩

theorem invoiceExample_pdfSubtotal : pdfSummarySubtotal invoiceExample = 560 := by
  rw [pdfSummarySubtotal]
  simp only [invoiceExample, List.map_cons, List.map_nil, List.sum_cons,
    List.sum_nil, InvoiceItem.total]
  rw [round2_of_eq 50000 ((10 : ℚ) * 50) (by norm_num),
    round2_of_eq 6000 ((3 : ℚ) * 20) (by norm_num)]
  norm_num

theorem c5_summary_amended_witness :
    invoiceExample.discount_percentage = 0 ∧ 0 < invoiceExample.tax_rate ∧
    TwoDec (pdfSummaryTax invoiceExample) ∧
    (SummaryRowKind.taxRow, "$" ++ fmtFixed2 invoiceExample.tax_amount) ∈
      pdfSummaryRows invoiceExample ∧
    (SummaryRowKind.totalRow, "$" ++ fmtFixed2 invoiceExample.total) ∈
      pdfSummaryRows invoiceExample := by
  have hd : invoiceExample.discount_percentage = 0 := rfl
  have hr : 0 < invoiceExample.tax_rate := by norm_num [invoiceExample]
  have ht : TwoDec (pdfSummaryTax invoiceExample) := by
    refine ⟨2800, ?_⟩
    rw [pdfSummaryTax,
      if_pos (show invoiceExample.tax_rate ≠ 0 by norm_num [invoiceExample]),
      invoiceExample_pdfSubtotal]
    norm_num [invoiceExample]
  exact ⟨hd, hr, ht, (c5_summary_amended invoiceExample).2.2.2.2.1 hd hr,
    (c5_summary_amended invoiceExample).2.2.2.2.2 hd ht⟩

/-- Claim C8, evaluated at the failing input: add_client performs no email
uniqueness check, so adding a client whose email equals that of an
already-stored client succeeds and appends it, leaving two stored clients of
the tenant with the same email; the claimed rejection does not happen. -/
theorem c8_duplicate_email_accepted :
    add_client "2025-01-02T00:00:00" [storedAcme] duplicateEmailData =
      Except.ok ("CL-002",
        [storedAcme,
         { id := "CL-002", name := "Acme Two", email := "billing@acme.test",
           created_date := "2025-01-02T00:00:00",
           last_modified := "2025-01-02T00:00:00" }]) ∧
    (Except.ok ("CL-002",
        [storedAcme,
         { id := "CL-002", name := "Acme Two", email := "billing@acme.test",
           created_date := "2025-01-02T00:00:00",
           last_modified := "2025-01-02T00:00:00" }]) :
      Except String (String × List StoredClient)).toOption.map
        (fun p => p.2.map StoredClient.email) =
      some ["billing@acme.test", "billing@acme.test"] := by
  constructor
  · rfl
  · rfl

theorem delete_client_ret (now cid : String) (st : List StoredClient) :
    (delete_client now cid st).1 = true ↔ ∃ c ∈ st, c.id = cid := by
  induction st with
  | nil => simp [delete_client]
  | cons c rest ih =>
    by_cases h : c.id = cid
    · simp [delete_client, h]
    · simp [delete_client, h, ih]

theorem delete_client_length (now cid : String) (st : List StoredClient) :
    (delete_client now cid st).2.length = st.length := by
  induction st with
  | nil => rfl
  | cons c rest ih =>
    by_cases h : c.id = cid
    · simp [delete_client, h]
    · simp [delete_client, h, ih]

theorem delete_client_not_found (now cid : String) (st : List StoredClient)
    (h : (delete_client now cid st).1 = false) :
    (delete_client now cid st).2 = st := by
  induction st with
  | nil => rfl
  | cons c rest ih =>
    by_cases hc : c.id = cid
    · rw [delete_client, if_pos hc] at h
      cases h
    · rw [delete_client, if_neg hc] at h ⊢
      rw [ih h]

theorem delete_client_found (now cid : String) (st : List StoredClient)
    (htrue : (delete_client now cid st).1 = true) :
    ∃ i, ∃ h : i < st.length,
      (st.get ⟨i, h⟩).id = cid ∧
      (delete_client now cid st).2 = st.set i
        { st.get ⟨i, h⟩ with is_active := false, last_modified := now } := by
  induction st with
  | nil => cases htrue
  | cons c rest ih =>
    by_cases hc : c.id = cid
    · refine ⟨0, by simp, hc, ?_⟩
      rw [delete_client, if_pos hc]
      rfl
    · rw [delete_client, if_neg hc] at htrue
      obtain ⟨i, hi, hid, hset⟩ := ih htrue
      refine ⟨i + 1, by simpa using Nat.succ_lt_succ hi, hid, ?_⟩
      rw [delete_client, if_neg hc]
      show c :: (delete_client now cid rest).2 = _
      rw [hset]
      rfl

/-- Claim C10: delete_client returns True iff a client with the id exists,
never removes an entry, and on success the store changes only at that
client: its is_active flag becomes False and its last_modified is restamped,
every other field and every other client left as they were; the deactivated
record is excluded from list_clients with active_only and still present
without it. -/
theorem c10_delete_client_soft (now cid : String) (st : List StoredClient) :
    ((delete_client now cid st).1 = true ↔ ∃ c ∈ st, c.id = cid) ∧
    (delete_client now cid st).2.length = st.length ∧
    ((delete_client now cid st).1 = false → (delete_client now cid st).2 = st) ∧
    ((delete_client now cid st).1 = true →
      ∃ i, ∃ h : i < st.length,
        (st.get ⟨i, h⟩).id = cid ∧
        (delete_client now cid st).2 = st.set i
          { st.get ⟨i, h⟩ with is_active := false, last_modified := now } ∧
        { st.get ⟨i, h⟩ with is_active := false, last_modified := now } ∉
          list_clients (delete_client now cid st).2 true ∧
        { st.get ⟨i, h⟩ with is_active := false, last_modified := now } ∈
          list_clients (delete_client now cid st).2 false) := by
  refine ⟨delete_client_ret now cid st, delete_client_length now cid st,
    delete_client_not_found now cid st, ?_⟩
  intro htrue
  obtain ⟨i, h, hid, hset⟩ := delete_client_found now cid st htrue
  refine ⟨i, h, hid, hset, ?_, ?_⟩
  · intro hmem
    rw [list_clients, if_pos rfl] at hmem
    have := (List.mem_filter.mp hmem).2
    simp at this
  · rw [list_clients]
    rw [if_neg (by simp : ¬(false : Bool) = true)]
    rw [hset]
    have hlen : i < (st.set i
        { st.get ⟨i, h⟩ with is_active := false, last_modified := now }).length := by
      simpa using h
    have hget := List.getElem_set_self hlen
    have hmem := List.getElem_mem hlen
    rwa [hget] at hmem

theorem c10_delete_client_soft_witness :
    (∃ c ∈ [storedAcme], c.id = "CL-001") ∧
    (delete_client "2025-02-01T00:00:00" "CL-001" [storedAcme]).1 = true ∧
    (delete_client "2025-02-01T00:00:00" "CL-001" [storedAcme]).2.length = 1 :=
  ⟨⟨storedAcme, by decide, by decide⟩,
   (c10_delete_client_soft "2025-02-01T00:00:00" "CL-001" [storedAcme]).1.mpr
     ⟨storedAcme, by decide, by decide⟩,
   (c10_delete_client_soft "2025-02-01T00:00:00" "CL-001" [storedAcme]).2.1⟩

theorem digitVal_digitChar (k : ℕ) (h : k < 10) : digitVal (digitChar k) = some k := by
  rw [digitVal, if_pos (isDigit_digitChar k h), toNat_digitChar k h]
  congr 1
  omega

theorem parse2_pad (n : ℕ) (h : n < 100) :
    parse2 (digitChar (n / 10)) (digitChar (n % 10)) = some n := by
  rw [parse2, digitVal_digitChar (n / 10) (by omega),
    digitVal_digitChar (n % 10) (by omega)]
  show some (10 * (n / 10) + n % 10) = some n
  congr 1
  omega

theorem parse4_pad (n : ℕ) (h : n < 10000) :
    parse4 (digitChar (n / 100 / 10)) (digitChar (n / 100 % 10))
      (digitChar (n % 100 / 10)) (digitChar (n % 100 % 10)) = some n := by
  rw [parse4, parse2_pad (n / 100) (by omega), parse2_pad (n % 100) (by omega)]
  show some (100 * (n / 100) + n % 100) = some n
  congr 1
  omega

theorem parse6_pad (n : ℕ) (h : n < 1000000) :
    parse6 (digitChar (n / 10000 / 10)) (digitChar (n / 10000 % 10))
      (digitChar (n / 100 % 100 / 10)) (digitChar (n / 100 % 100 % 10))
      (digitChar (n % 100 / 10)) (digitChar (n % 100 % 10)) = some n := by
  rw [parse6, parse2_pad (n / 10000) (by omega),
    parse2_pad (n / 100 % 100) (by omega), parse2_pad (n % 100) (by omega)]
  show some (10000 * (n / 10000) + 100 * (n / 100 % 100) + n % 100) = some n
  congr 1
  omega

theorem fromisoformat_isoformat (d : DateTime) (h : ValidDateTime d) :
    DateTime.fromisoformat d.isoformat = some d := by
  obtain ⟨y, mo, dd, hh, mi, ss, us⟩ := d
  obtain ⟨hy, hmo, hdd, hhh, hmi, hss, hus⟩ := h
  by_cases hus0 : us = 0
  · subst hus0
    rw [DateTime.fromisoformat, DateTime.isoformat]
    simp only [pad4c, pad2c, if_pos rfl, if_true, List.cons_append,
      List.nil_append, List.append_nil]
    simp only [fromisoChars, parse4_pad y hy, parse2_pad mo hmo,
      parse2_pad dd hdd, parse2_pad hh hhh, parse2_pad mi hmi,
      parse2_pad ss hss, Option.some_bind]
    rfl
  · rw [DateTime.fromisoformat, DateTime.isoformat]
    simp only [pad4c, pad2c, pad6c, if_neg hus0, List.cons_append,
      List.nil_append, List.append_nil]
    simp only [fromisoChars, parse4_pad y hy, parse2_pad mo hmo,
      parse2_pad dd hdd, parse2_pad hh hhh, parse2_pad mi hmi,
      parse2_pad ss hss, parse6_pad us hus, Option.some_bind]
    rfl

/-- Claim C9: for every invoice whose two dates lie in the ranges the
datetime type guarantees, from_dict inverts to_dict exactly: the dates
survive the conversion to ISO strings and back, and the client and every
line item are rebuilt field for field. -/
theorem c9_serialization_roundtrip (inv : Invoice)
    (h1 : ValidDateTime inv.issue_date) (h2 : ValidDateTime inv.due_date) :
    Invoice.from_dict (Invoice.to_dict inv) = some inv := by
  have hitems : (inv.items.map InvoiceItem.to_dict).map InvoiceItem.from_dict =
      inv.items := by
    rw [List.map_map]
    have hcomp : (InvoiceItem.from_dict ∘ InvoiceItem.to_dict) = id :=
      funext fun _ => rfl
    rw [hcomp, List.map_id]
  rw [Invoice.from_dict, Invoice.to_dict]
  simp only [fromisoformat_isoformat inv.issue_date h1,
    fromisoformat_isoformat inv.due_date h2, Option.some_bind, hitems]
  rfl

theorem c9_serialization_roundtrip_witness :
    ValidDateTime invoiceExample.issue_date ∧
    ValidDateTime invoiceExample.due_date ∧
    Invoice.from_dict (Invoice.to_dict invoiceExample) = some invoiceExample :=
  ⟨by decide, by decide,
   c9_serialization_roundtrip invoiceExample (by decide) (by decide)⟩
